import Mathlib

/-!
Verification of the ZIMP game engine (`game.py`, `tile.py`, `tile_deck.py`)
against its natural-language specification.

The Python data structures are embedded shallowly:
* Python `dict`s become insertion-ordered association lists (`dictGet`,
  `dictSet` reproduce `d[k]` lookup and `d[k] = v` assignment);
* machine state (`Player`, `Board`, the pending `input()` stream) is threaded
  explicitly; functions that can raise (`KeyError`, `IndexError`,
  `AttributeError` on `None`, exhausted input) return `Option`;
* `board.py` and `player.py` are not part of the sources; the few members the
  engine uses (`is_explored`, `draw_tile`, `update_time`, `take_damage`) are
  modelled from the specification and marked as such.
-/

/-- Python `dict` lookup `m[k]` on an insertion-ordered association list:
`some` of the stored value, `none` for a `KeyError`. -/
def dictGet {κ α : Type} [BEq κ] : List (κ × α) → κ → Option α
  | [], _ => none
  | (k, v) :: rest, key => if k == key then some v else dictGet rest key

/-- Python `dict` assignment `m[k] = v`: overwrite in place when the key is
present, append at the end (insertion order) when it is new. -/
def dictSet {κ α : Type} [BEq κ] (m : List (κ × α)) (k : κ) (v : α) : List (κ × α) :=
  if m.any (fun p => p.1 == k) then
    m.map (fun p => if p.1 == k then (k, v) else p)
  else m ++ [(k, v)]

/-- `matchesAt sub l`: the list `l` starts with `sub`. -/
def matchesAt [BEq α] : List α → List α → Bool
  | [], _ => true
  | _ :: _, [] => false
  | a :: as, b :: bs => a == b && matchesAt as bs

/-- `containsRun sub l`: `sub` occurs as a contiguous run inside `l`. -/
def containsRun [BEq α] : List α → List α → Bool
  | sub, [] => matchesAt sub []
  | sub, b :: bs => matchesAt sub (b :: bs) || containsRun sub bs

/-- Python's `sub in s` on strings: substring containment (the empty string is
contained in every string). -/
def strIn (sub s : String) : Bool := containsRun sub.toList s.toList

/-- `tile.py` `Tile`: name, exits dict (Python dict from direction strings to
bool, insertion-ordered), and the deck label.  The `image` attribute is
presentation-only and is dropped. -/
structure Tile where
  name : String
  exits : List (String × Bool)
  tile_type : String
deriving DecidableEq

/-- `tile.py` `Tile.possible_exits`: the keys of the exits dict whose value is
truthy, in dict order. -/
def Tile.possible_exits (t : Tile) : List String :=
  (t.exits.filter (fun p => p.2)).map (fun p => p.1)

/-- `tile.py` `Tile.add_exit`: guarded by Python's `direction in 'NESW'`
(substring containment), sets `exits[direction] = True`; otherwise raises
`ValueError`. -/
def Tile.add_exit (t : Tile) (direction : String) : Except String Tile :=
  if strIn direction "NESW" then
    Except.ok { t with exits := dictSet t.exits direction true }
  else
    Except.error (direction ++ " is not a valid exit direction")

/-- `tile.py` `Tile.rotate` rotation-count table
`{'N': {...}, 'E': {...}, 'S': {...}, 'W': {...}}[exit][entry]`; `none` models
the `KeyError` on a non-cardinal argument. -/
def rotationsFor (ex en : String) : Option Nat :=
  if ex == "N" then
    if en == "N" then some 2 else if en == "E" then some 1
    else if en == "S" then some 0 else if en == "W" then some 3 else none
  else if ex == "E" then
    if en == "N" then some 3 else if en == "E" then some 2
    else if en == "S" then some 1 else if en == "W" then some 0 else none
  else if ex == "S" then
    if en == "N" then some 0 else if en == "E" then some 3
    else if en == "S" then some 2 else if en == "W" then some 1 else none
  else if ex == "W" then
    if en == "N" then some 1 else if en == "E" then some 0
    else if en == "S" then some 3 else if en == "W" then some 2 else none
  else none

/-- One iteration of the `tile.py` rotation loop: rebuild the exits dict as
`{d: exits[prev] for d, prev in zip('NESW', 'WNES')}`; `none` models a
`KeyError` when a cardinal key is missing. -/
def rotateStep (m : List (String × Bool)) : Option (List (String × Bool)) :=
  match dictGet m "W", dictGet m "N", dictGet m "E", dictGet m "S" with
  | some w, some n, some e, some s => some [("N", w), ("E", n), ("S", e), ("W", s)]
  | _, _, _, _ => none

/-- `rotateStep` applied `n` times in sequence. -/
def rotateSteps : Nat → List (String × Bool) → Option (List (String × Bool))
  | 0, m => some m
  | n + 1, m => (rotateStep m).bind (rotateSteps n)

/-- `tile.py` `Tile.rotate(entry, exit)`: look up the rotation count and apply
that many quarter-turn relabelings of the exit dict. -/
def Tile.rotate (t : Tile) (entry ex : String) : Option Tile :=
  (rotationsFor ex entry).bind (fun r =>
    (rotateSteps r t.exits).map (fun m => { t with exits := m }))

/-- The four cardinal direction labels. -/
def cardinals : List String := ["N", "E", "S", "W"]

/-- `rotate (entry, exit)` applied four times with the same pair. -/
def rot4 (t : Tile) (en ex : String) : Option Tile :=
  (t.rotate en ex).bind (fun t1 =>
    (t1.rotate en ex).bind (fun t2 =>
      (t2.rotate en ex).bind (fun t3 => t3.rotate en ex)))

/-- C3 counterexample: `"NE"` is not one of the four cardinal directions, yet
`add_exit` does not raise — Python's `'NE' in 'NESW'` substring test accepts
it, and the key `"NE"` is inserted into the exits dict. -/
theorem C3_substring_counterexample :
    Tile.add_exit ⟨"Foyer", [("N", true), ("E", false), ("S", false), ("W", false)], "Indoor"⟩ "NE"
      = Except.ok ⟨"Foyer",
          [("N", true), ("E", false), ("S", false), ("W", false), ("NE", true)], "Indoor"⟩
    ∧ "NE" ∉ cardinals := by
  constructor
  · rfl
  · decide

/-- C3 (amended): `add_exit d` sets the exit `d` open exactly when `d` is a
contiguous substring of `"NESW"` (this includes the four cardinal directions,
but also `""`, `"NE"`, `"ES"`, `"SW"`, `"NES"`, `"ESW"`, `"NESW"`), and raises
the invalid-direction error, leaving the exit dict unchanged, exactly when `d`
is not such a substring. -/
theorem C3_add_exit_amended (t : Tile) (d : String) :
    (strIn d "NESW" = true →
      Tile.add_exit t d = Except.ok { t with exits := dictSet t.exits d true })
    ∧ (strIn d "NESW" = false →
      Tile.add_exit t d = Except.error (d ++ " is not a valid exit direction"))
    ∧ (d ∈ cardinals → strIn d "NESW" = true) := by
  refine ⟨fun h => ?_, fun h => ?_, fun h => ?_⟩
  · simp [Tile.add_exit, h]
  · simp [Tile.add_exit, h]
  · fin_cases h <;> decide

/-- Witness for `C3_add_exit_amended` at concrete inputs. -/
theorem C3_add_exit_amended_witness :
    Tile.add_exit ⟨"Bedroom", [("N", true), ("E", false), ("S", false), ("W", false)], "Indoor"⟩ "S"
      = Except.ok ⟨"Bedroom", [("N", true), ("E", false), ("S", true), ("W", false)], "Indoor"⟩ :=
  (C3_add_exit_amended
    ⟨"Bedroom", [("N", true), ("E", false), ("S", false), ("W", false)], "Indoor"⟩ "S").1
    (by decide)

/-- C5: for a tile whose exits dict has exactly the four cardinal keys and any
cardinal `(entry, exit)` pair, applying `rotate(entry, exit)` four times
returns the tile (in particular its exit set) to its original value: the
rotation is a group of order 4. -/
theorem C5_rotate_order_four (a b c d : Bool) (nm ty en ex : String)
    (hen : en ∈ cardinals) (hex : ex ∈ cardinals) :
    rot4 ⟨nm, [("N", a), ("E", b), ("S", c), ("W", d)], ty⟩ en ex
      = some ⟨nm, [("N", a), ("E", b), ("S", c), ("W", d)], ty⟩ := by
  fin_cases hen <;> fin_cases hex <;> rfl

/-- Witness for `C5_rotate_order_four` at a concrete tile and pair. -/
theorem C5_rotate_order_four_witness :
    rot4 ⟨"Bathroom", [("N", true), ("E", false), ("S", false), ("W", true)], "Indoor"⟩ "N" "E"
      = some ⟨"Bathroom", [("N", true), ("E", false), ("S", false), ("W", true)], "Indoor"⟩ :=
  C5_rotate_order_four true false false true "Bathroom" "Indoor" "N" "E" (by decide) (by decide)

/-- `tile_deck.py` `TileDeck`: list of remaining tiles plus the separately
tracked `count` attribute (`__init__` sets `count = len(tiles)`). -/
structure TileDeck where
  tiles : List Tile
  count : Int
deriving DecidableEq

/-- `tile_deck.py` `TileDeck.draw`: when `count > 0` pop and return the first
tile and decrement `count`; otherwise return `None` unchanged.  The outer
`Option` models the `IndexError` of `pop(0)` on an empty list when the count
is out of sync. -/
def TileDeck.draw (d : TileDeck) : Option (Option Tile × TileDeck) :=
  if 0 < d.count then
    match d.tiles with
    | [] => none
    | t :: rest => some (some t, ⟨rest, d.count - 1⟩)
  else some (none, d)

/-- `tile_deck.py` `TileDeck.draw_by_name`: linear search by tile name;
removes and returns the first match (decrementing `count`), or returns `None`
leaving the deck unchanged. -/
def TileDeck.draw_by_name (d : TileDeck) (nm : String) : Option Tile × TileDeck :=
  match d.tiles.find? (fun t => t.name == nm) with
  | none => (none, d)
  | some t => (some t, ⟨d.tiles.eraseP (fun u => u.name == nm), d.count - 1⟩)

/-- `TileDeck.draw` iterated `n` times, collecting the returned values. -/
def TileDeck.drawSeq : TileDeck → Nat → Option (List (Option Tile) × TileDeck)
  | d, 0 => some ([], d)
  | d, n + 1 =>
    match TileDeck.draw d with
    | none => none
    | some (o, d') =>
      match TileDeck.drawSeq d' n with
      | none => none
      | some (os, d'') => some (o :: os, d'')

/-- One entry of a development card's `content` dict: a `text` tag and a
numeric `value`. -/
structure Content where
  text : String
  value : Int
deriving DecidableEq

/-- A development card: its `content` dict, keyed by clock label (or by
`"Item"` for the nested item table). -/
structure DevCard where
  content : List (String × Content)
deriving DecidableEq

/-- Modelled from the spec: `player.py` is not under `src/`.  The `Player`
record carries `location`, `health`, `attack`, the ordered `items` collection
and the `has_totem` flag (§3 Player). -/
structure Player where
  location : Int × Int
  health : Int
  attack : Int
  items : List String
  has_totem : Bool
deriving DecidableEq

/-- Modelled from the spec: `player.py` is not under `src/`.
`Player.take_damage` applies combat damage to health, which "may end ≤ 0"
(§4.4 combat) — no clamping. -/
def Player.take_damage (p : Player) (damage : Int) : Player :=
  { p with health := p.health - damage }

/-- Modelled from the spec: `board.py` is not under `src/`.  The `Board`
carries the sparse coordinate-to-tile map, the two room decks, the event-card
deck (whose `count` is its length, §3 Deck invariant), the clock label, and
the reserved patio tile (§3 Board). -/
structure Board where
  tile_map : List ((Int × Int) × Tile)
  indoor_tiles : TileDeck
  outdoor_tiles : TileDeck
  dev_cards : List DevCard
  time : String
  patio_tile : Tile
deriving DecidableEq

/-- Modelled from the spec: a coordinate is explored iff it is present in the
tile map (§3 Board invariant). -/
def Board.is_explored (b : Board) (loc : Int × Int) : Bool :=
  (dictGet b.tile_map loc).isSome

/-- Modelled from the spec: `drawTile(fromRoom)` "chooses Indoor or Outdoor
deck ... a rule table keyed by current room name/category" (§4.3); we key on
the current room's category label. -/
def Board.chooseIndoor (room : Tile) : Bool := room.tile_type == "Indoor"

/-- Modelled from the spec: the clock labels advance one step each time the
event deck empties, and stop at the final label `"11 PM"` (§3 Board, §4.3
`updateTime`). -/
def next_time (t : String) : String :=
  if t == "9 PM" then "10 PM" else if t == "10 PM" then "11 PM" else t

/-- Modelled from the spec: `updateTime` advances the clock one step; at the
final label there is no further advance (§4.3). -/
def Board.update_time (b : Board) : Board := { b with time := next_time b.time }

/-- Modelled from the spec: `drawTile(fromRoom)` draws from the chosen deck
and returns the tile (or `None` with the category label when exhausted)
together with the updated board (§4.3). -/
def Board.draw_tile (b : Board) (room : Tile) : Option (Option Tile × String × Board) :=
  if Board.chooseIndoor room then
    match TileDeck.draw b.indoor_tiles with
    | none => none
    | some (t?, dk) => some (t?, "Indoor", { b with indoor_tiles := dk })
  else
    match TileDeck.draw b.outdoor_tiles with
    | none => none
    | some (t?, dk) => some (t?, "Outdoor", { b with outdoor_tiles := dk })

/-- The engine state the helper methods touch: player, board, and the pending
`input()` answers (the external choice stream). -/
structure Core where
  player : Player
  board : Board
  inputs : List String
deriving DecidableEq

/-- The full `game.py` `Game` state: the core plus the
`completed_turn_sequence` flag (none of the helper methods below read or
write the flag; only `player_turn`, `bash_through_wall` and `cower` do). -/
structure Game where
  core : Core
  completed_turn_sequence : Bool
deriving DecidableEq

/-- Python `str.upper()` on the ASCII answers and directions the game
consumes, written over the character list so that it evaluates by kernel
reduction. -/
def pyUpper (s : String) : String := String.mk (s.toList.map Char.toUpper)

/-- `game.py` `Game._opposite_direction`: `opposites.get(direction, "Invalid
direction")`. -/
def opposite_direction (d : String) : String :=
  if d == "N" then "S" else if d == "E" then "W"
  else if d == "S" then "N" else if d == "W" then "E"
  else "Invalid direction"

/-- `game.py` `Game._update_location`: fixed direction deltas; a non-cardinal
direction falls off the end of the `elif` chain and yields Python `None`. -/
def update_location (loc : Int × Int) (d : String) : Option (Int × Int) :=
  if d == "E" then some (loc.1, loc.2 + 1)
  else if d == "W" then some (loc.1, loc.2 - 1)
  else if d == "N" then some (loc.1 - 1, loc.2)
  else if d == "S" then some (loc.1 + 1, loc.2)
  else none

/-- `game.py` `Game._current_room`: `self.board.tile_map[self.player.location]`
(`none` models the `KeyError`). -/
def Core.current_room (c : Core) : Option Tile :=
  dictGet c.board.tile_map c.player.location

/-- A prompt loop that upper-cases each pending input and repeats until the
answer lies in `valid` (invalid answers only print); `none` models running out
of input. -/
def findInputUpper (valid : List String) : List String → Option (String × List String)
  | [] => none
  | a :: rest =>
    if pyUpper a ∈ valid then some (pyUpper a, rest) else findInputUpper valid rest

/-- A prompt loop that repeats until the raw (not upper-cased) answer lies in
`valid`. -/
def findInputIn (valid : List String) : List String → Option (String × List String)
  | [] => none
  | a :: rest => if a ∈ valid then some (a, rest) else findInputIn valid rest

/-- `game.py` `Game._game_over`: when the event deck is empty, either report
time-out at `"11 PM"` or advance the clock; then report death when
`health ≤ 0`. -/
def Core.game_over (c : Core) : Bool × Core :=
  if c.board.dev_cards.length == 0 && (c.board.time == "11 PM") then (true, c)
  else
    let c := if c.board.dev_cards.length == 0
      then { c with board := Board.update_time c.board } else c
    if c.player.health ≤ 0 then (true, c) else (false, c)

/-- Python truthiness of a string: non-empty strings are truthy. -/
def pyTruthy (s : String) : Bool := !(s == "")

/-- `game.py` `Game._update_attack`: note that the middle guard is the literal
Python condition `item == 'Golf Club' or 'Grisly Femur' or 'Board with
Nails'`, whose second and third operands are non-empty string literals. -/
def Core.update_attack (c : Core) (item : String) : Core :=
  let c := if item == "Soda Can"
    then { c with player := { c.player with health := c.player.health + 2 } } else c
  let c := if item == "Golf Club" || pyTruthy "Grisly Femur" || pyTruthy "Board with Nails"
    then { c with player := { c.player with attack := c.player.attack + 1 } } else c
  let c := if item == "Machete"
    then { c with player := { c.player with attack := c.player.attack + 2 } } else c
  if item == "Chainsaw"
    then { c with player := { c.player with attack := c.player.attack + 3 } } else c

/-- `game.py` `Game.replace_item`: prompt (raw input) until the answer names a
held item, remove it (first occurrence) and append the new item. -/
def Core.replace_item (c : Core) (new_item : String) : Option Core :=
  match findInputIn c.player.items c.inputs with
  | none => none
  | some (chosen, restIn) =>
    some { c with
      player := { c.player with items := (c.player.items.erase chosen) ++ [new_item] },
      inputs := restIn }

/-- `game.py` `Game._get_new_item`: unless the game is already over, draw a
card from the event deck and read its `'Item'` entry; at capacity (≥ 2 items)
prompt Y/N — `Y` runs `replace_item` then `_update_attack`, `N` discards the
find; below capacity append the item and run `_update_attack`. -/
def Core.get_new_item (c : Core) : Option Core :=
  let go := Core.game_over c
  if go.1 then some go.2
  else
    let c := go.2
    match c.board.dev_cards with
    | [] => none
    | card :: rest =>
      let c := { c with board := { c.board with dev_cards := rest } }
      match dictGet card.content "Item" with
      | none => none
      | some itm =>
        let new_item := itm.text
        if 2 ≤ c.player.items.length then
          match findInputUpper ["Y", "N"] c.inputs with
          | none => none
          | some (act, restIn) =>
            let c := { c with inputs := restIn }
            if act == "Y" then
              match Core.replace_item c new_item with
              | none => none
              | some c' => some (Core.update_attack c' new_item)
            else some c
        else
          let c := { c with player := { c.player with items := c.player.items ++ [new_item] } }
          some (Core.update_attack c new_item)

/-- `game.py` `Game._fight_zombies`: `damage = zombies − attack`; when
non-negative, clamp at 4 and apply to health. -/
def Core.fight_zombies (c : Core) (num_zombies : Int) : Core :=
  let damage := num_zombies - c.player.attack
  if 0 ≤ damage then { c with player := Player.take_damage c.player (min damage 4) }
  else c

/-- `game.py` `Game._escape_zombies`: collect the current room's exits leading
to explored rooms, prompt until one is chosen, relocate there, then consume an
`'Oil'` item or lose 1 health. -/
def Core.escape_zombies (c : Core) : Option Core :=
  match Core.current_room c with
  | none => none
  | some room =>
    let escape_dirs := room.possible_exits.filter (fun d =>
      match update_location c.player.location d with
      | some loc => Board.is_explored c.board loc
      | none => false)
    match findInputUpper escape_dirs c.inputs with
    | none => none
    | some (chosen, restIn) =>
      let c := { c with inputs := restIn }
      match update_location c.player.location chosen with
      | none => none
      | some loc =>
        let c := { c with player := { c.player with location := loc } }
        if "Oil" ∈ c.player.items then
          some { c with player := { c.player with items := c.player.items.erase "Oil" } }
        else some { c with player := { c.player with health := c.player.health - 1 } }

/-- `game.py` `Game._runaway_or_fight`: prompt F/R; `R` escapes (returning the
runaway flag `true`), `F` fights. -/
def Core.runaway_or_fight (c : Core) (num_zombies : Int) : Option (Bool × Core) :=
  match findInputUpper ["F", "R"] c.inputs with
  | none => none
  | some (act, restIn) =>
    let c := { c with inputs := restIn }
    if act == "R" then (Core.escape_zombies c).map (fun c' => (true, c'))
    else some (false, Core.fight_zombies c num_zombies)

/-- `game.py` `Game._resolve_dev_card`: draw the next event card (`none`
models the crash when the deck is empty: `draw()` yields `None` and
`card.display` fails), dispatch on `content[time].text`, then evaluate
game-over and, when the game goes on and no runaway happened, apply the
Kitchen/Garden/Storage room bonuses. -/
def Core.resolve_dev_card (c : Core) : Option Core :=
  match c.board.dev_cards with
  | [] => none
  | card :: rest =>
    let c := { c with board := { c.board with dev_cards := rest } }
    match dictGet card.content c.board.time with
    | none => none
    | some content =>
      let step : Option (Bool × Core) :=
        if content.text == "zombies" then Core.runaway_or_fight c content.value
        else if content.text == "ITEM" then (Core.get_new_item c).map (fun c' => (false, c'))
        else some (false, { c with player := { c.player with health := c.player.health + content.value } })
      match step with
      | none => none
      | some (runaway, c) =>
        let go := Core.game_over c
        let c := go.2
        if !go.1 && !runaway then
          match Core.current_room c with
          | none => none
          | some room =>
            if room.name == "Kitchen" || room.name == "Garden" then
              some { c with player := { c.player with health := c.player.health + 1 } }
            else if room.name == "Storage" then Core.get_new_item c
            else some c
        else some c

/-- `game.py` `Game._place_patio_tile`: on a south arrival rotate the dining
room with `rotate('S','S')` and enter the (unmodified) patio one row below;
otherwise rotate the patio with `rotate('N','N')` and enter it one row above;
return the (possibly rotated) dining room. -/
def Core.place_patio_tile (c : Core) (chosen_exit : String) (dining : Tile) :
    Option (Core × Tile) :=
  let patio := c.board.patio_tile
  let x := c.player.location.1
  let y := c.player.location.2
  if chosen_exit == "S" then
    match Tile.rotate dining "S" "S" with
    | none => none
    | some dining' =>
      some ({ c with board :=
        { c.board with tile_map := dictSet c.board.tile_map (x + 1, y) patio } }, dining')
  else
    match Tile.rotate patio "N" "N" with
    | none => none
    | some patio' =>
      some ({ c with board :=
        { c.board with tile_map := dictSet c.board.tile_map (x - 1, y) patio' } }, dining)

/-- `game.py` `Game._choose_entry`: prompt until the upper-cased answer is one
of the tile's exposed entries, then rotate the tile to align that entry with
the chosen exit. -/
def Core.choose_entry (c : Core) (chosen_exit : String) (new_tile : Tile)
    (entries : List String) : Option (Core × Tile) :=
  match findInputUpper entries c.inputs with
  | none => none
  | some (en, restIn) =>
    match Tile.rotate new_tile en chosen_exit with
    | none => none
    | some t => some ({ c with inputs := restIn }, t)

/-- `game.py` `Game._place_new_tile`: multi-exit tiles go through the dining
room special case or the external entry choice; single-exit tiles auto-align
(`possible_entries[0]`, whose `IndexError` on an exitless tile is `none`);
the placed tile is entered into the tile map at the player's location and a
development card is resolved. -/
def Core.place_new_tile (c : Core) (chosen_exit : String) (new_tile : Tile) : Option Core :=
  let entries := Tile.possible_exits new_tile
  let placed : Option (Core × Tile) :=
    if 1 < entries.length then
      if new_tile.name == "Dining Room" then Core.place_patio_tile c chosen_exit new_tile
      else Core.choose_entry c chosen_exit new_tile entries
    else
      match entries with
      | [] => none
      | e :: _ => (Tile.rotate new_tile e chosen_exit).map (fun t => (c, t))
  match placed with
  | none => none
  | some (c, t) =>
    let c := { c with board :=
      { c.board with tile_map := dictSet c.board.tile_map c.player.location t } }
    Core.resolve_dev_card c

/-- `game.py` `Game._move_direction`: inner `none` is Python's `None` return
(direction not currently an exit, or a non-cardinal exit label); the outer
`none` is the `KeyError` of an unplaced current room. -/
def Game.move_direction (s : Game) (dir : String) : Option (Option (Int × Int)) :=
  match Core.current_room s.core with
  | none => none
  | some room =>
    if dir ∈ room.possible_exits then some (update_location s.core.player.location dir)
    else some none

/-- `game.py` `Game.player_turn`: the returned `Bool` is `true` exactly when
control falls through to the final `completed_turn_sequence = True` line
(a fully resolved move), `false` on each early `return`. -/
def Game.player_turn (s : Game) (direction : String) : Option (Bool × Game) :=
  let dir := pyUpper direction
  match Game.move_direction s dir with
  | none => none
  | some none => some (false, s)
  | some (some new_location) =>
    if Board.is_explored s.core.board new_location then
      match dictGet s.core.board.tile_map new_location with
      | none => none
      | some room =>
        if opposite_direction dir ∈ room.possible_exits then
          let c := { s.core with player := { s.core.player with location := new_location } }
          match Core.resolve_dev_card c with
          | none => none
          | some c' => some (true, { core := c', completed_turn_sequence := true })
        else some (false, s)
    else
      match Core.current_room s.core with
      | none => none
      | some cur =>
        match Board.draw_tile s.core.board cur with
        | none => none
        | some (none, _, b') => some (false, { s with core := { s.core with board := b' } })
        | some (some new_tile, _, b') =>
          let c := { s.core with
            board := b',
            player := { s.core.player with location := new_location } }
          match Core.place_new_tile c dir new_tile with
          | none => none
          | some c' => some (true, { core := c', completed_turn_sequence := true })

/-- `game.py` `Game.bash_through_wall`: the returned `Bool` is `true` exactly
when the bash fully resolves (control reaches the trailing game-over check),
`false` on each early `return`. -/
def Game.bash_through_wall (s : Game) (direction : String) : Option (Bool × Game) :=
  if !s.completed_turn_sequence then some (false, s)
  else
    let dir := pyUpper direction
    if !(dir ∈ cardinals) then some (false, s)
    else
      match Core.current_room s.core with
      | none => none
      | some current_room =>
        if dir ∈ current_room.possible_exits then some (false, s)
        else
          match update_location s.core.player.location dir with
          | none => none
          | some new_location =>
            if Board.is_explored s.core.board new_location then
              match dictGet s.core.board.tile_map new_location with
              | none => none
              | some new_room =>
                let step1 : Option Core :=
                  if !(opposite_direction dir ∈ new_room.possible_exits) then
                    match Tile.add_exit new_room (opposite_direction dir) with
                    | Except.error _ => none
                    | Except.ok nr => some { s.core with board :=
                        { s.core.board with
                          tile_map := dictSet s.core.board.tile_map new_location nr } }
                  else some s.core
                match step1 with
                | none => none
                | some c =>
                  match Tile.add_exit current_room dir with
                  | Except.error _ => none
                  | Except.ok cur' =>
                    let c := { c with board := { c.board with
                      tile_map := dictSet c.board.tile_map c.player.location cur' } }
                    let c := { c with player := { c.player with location := new_location } }
                    let c := Core.fight_zombies c 3
                    let c := (Core.game_over c).2
                    some (true, { s with core := c })
            else
              match Board.draw_tile s.core.board current_room with
              | none => none
              | some (none, _, b') =>
                some (false, { s with core := { s.core with board := b' } })
              | some (some new_tile, _, b') =>
                match Tile.add_exit current_room dir with
                | Except.error _ => none
                | Except.ok cur' =>
                  let c := { s.core with board := { b' with
                    tile_map := dictSet b'.tile_map s.core.player.location cur' } }
                  let c := { c with player := { c.player with location := new_location } }
                  let c := Core.fight_zombies c 3
                  match Core.place_new_tile c dir new_tile with
                  | none => none
                  | some c =>
                    let c := (Core.game_over c).2
                    some (true, { s with core := c })

/-- `game.py` `Game.cower`: the returned `Bool` is `false` on the
flag-not-set rejection; otherwise clear the flag, heal +3, draw (and discard)
one event card — an empty deck draws `None` silently — and re-evaluate
game-over. -/
def Game.cower (s : Game) : Bool × Game :=
  if !s.completed_turn_sequence then (false, s)
  else
    let c := s.core
    let c := { c with player := { c.player with health := c.player.health + 3 } }
    let c := { c with board := { c.board with dev_cards := c.board.dev_cards.tail } }
    let c := (Core.game_over c).2
    (true, { core := c, completed_turn_sequence := false })

theorem game_over_frame (c : Core) :
    (Core.game_over c).2.player = c.player
    ∧ (Core.game_over c).2.inputs = c.inputs
    ∧ (Core.game_over c).2.board.dev_cards = c.board.dev_cards
    ∧ (Core.game_over c).2.board.tile_map = c.board.tile_map := by
  unfold Core.game_over Board.update_time
  split
  · simp
  · split <;> dsimp only <;> split <;> simp

/-- Helper for C4: a core with the player's attack replaced. -/
def setAttack (c : Core) (a : Int) : Core :=
  { c with player := { c.player with attack := a } }

/-- C4: combat computes `damage = zombieCount − attack`; non-negative damage
is clamped at 4 and subtracted from health (no lower clamp), negative damage
is not applied; in particular zombies 3 vs attack 2 deals 1, zombies 2 vs
attack 5 deals 0, and zombies 10 vs attack 0 deals exactly 4. -/
theorem C4_combat (c : Core) (z : Int) :
    ((Core.fight_zombies c z).player.health =
      if 0 ≤ z - c.player.attack then c.player.health - min (z - c.player.attack) 4
      else c.player.health)
    ∧ (Core.fight_zombies (setAttack c 2) 3).player.health = c.player.health - 1
    ∧ (Core.fight_zombies (setAttack c 5) 2).player.health = c.player.health
    ∧ (Core.fight_zombies (setAttack c 0) 10).player.health = c.player.health - 4 := by
  refine ⟨?_, ?_, ?_, ?_⟩
  · simp only [Core.fight_zombies, Player.take_damage]
    split <;> rename_i h <;> simp [h]
  · simp [Core.fight_zombies, setAttack, Player.take_damage]
  · simp [Core.fight_zombies, setAttack, Player.take_damage]
  · simp [Core.fight_zombies, setAttack, Player.take_damage]

/-- C9: the guard `item == 'Golf Club' or 'Grisly Femur' or 'Board with
Nails'` is always truthy, so every `_update_attack` call adds at least 1
attack; `'Machete'` adds a further 2, `'Chainsaw'` a further 3, and
`'Soda Can'` also adds 2 health. -/
theorem C9_update_attack (c : Core) (item : String) :
    (Core.update_attack c item).player.attack
        = c.player.attack + 1 + (if item == "Machete" then 2 else 0)
          + (if item == "Chainsaw" then 3 else 0)
    ∧ (Core.update_attack c item).player.health
        = c.player.health + (if item == "Soda Can" then 2 else 0)
    ∧ c.player.attack + 1 ≤ (Core.update_attack c item).player.attack := by
  have htruthy :
      (item == "Golf Club" || pyTruthy "Grisly Femur" || pyTruthy "Board with Nails")
        = true := by
    simp [pyTruthy]
  refine ⟨?_, ?_, ?_⟩ <;>
    simp only [Core.update_attack, htruthy, if_true] <;>
    split_ifs <;> simp <;> omega

theorem drawSeq_succ (d : TileDeck) (n : Nat) :
    TileDeck.drawSeq d (n + 1)
      = match TileDeck.draw d with
        | none => none
        | some (o, d') =>
          match TileDeck.drawSeq d' n with
          | none => none
          | some (os, d'') => some (o :: os, d'') := rfl

theorem tileDeck_drawSeq_complete (ts : List Tile) : ∀ d : TileDeck,
    d.tiles = ts → d.count = (ts.length : Int) →
    TileDeck.drawSeq d (ts.length + 1) = some (ts.map some ++ [none], ⟨[], 0⟩) := by
  induction ts with
  | nil =>
    intro d h1 h2
    obtain ⟨tiles, count⟩ := d
    simp only at h1 h2
    subst h1
    simp only [List.length_nil, Nat.cast_zero] at h2
    subst h2
    simp [TileDeck.drawSeq, TileDeck.draw]
  | cons t rest ih =>
    intro d h1 h2
    obtain ⟨tiles, count⟩ := d
    simp only at h1 h2
    subst h1
    have hpos : (0 : Int) < count := by
      rw [h2]; simp only [List.length_cons]; omega
    have hdraw : TileDeck.draw ⟨t :: rest, count⟩
        = some (some t, ⟨rest, count - 1⟩) := by
      simp [TileDeck.draw, hpos]
    have hcount : count - 1 = (rest.length : Int) := by
      simp only [List.length_cons] at h2
      omega
    have hrec := ih ⟨rest, count - 1⟩ rfl hcount
    rw [show (t :: rest).length + 1 = (rest.length + 1) + 1 from rfl, drawSeq_succ, hdraw]
    dsimp only
    rw [hrec]
    simp

/-- C6: for a deck whose `count` equals its number of remaining tiles (as the
constructor establishes), each draw while tiles remain removes and returns the
first remaining tile and decrements `count` by exactly 1, the invariant
`count = length of remaining tiles` is preserved, and a deck of `n` tiles
yields exactly its `n` tiles, in order and without repetition, before the
`(n+1)`-th draw returns `None` on the emptied deck. -/
theorem C6_deck_draw (d : TileDeck) (h : d.count = (d.tiles.length : Int)) :
    (∀ t rest, d.tiles = t :: rest →
      TileDeck.draw d = some (some t, ⟨rest, d.count - 1⟩)
      ∧ d.count - 1 = (rest.length : Int))
    ∧ (∀ o d', TileDeck.draw d = some (o, d') → d'.count = (d'.tiles.length : Int))
    ∧ TileDeck.drawSeq d (d.tiles.length + 1)
        = some (d.tiles.map some ++ [none], ⟨[], 0⟩) := by
  refine ⟨?_, ?_, tileDeck_drawSeq_complete d.tiles d rfl h⟩
  · intro t rest h1
    have hpos : (0 : Int) < d.count := by
      rw [h, h1]; simp only [List.length_cons]; omega
    constructor
    · obtain ⟨tiles, count⟩ := d
      simp only at h1
      subst h1
      simp [TileDeck.draw, hpos]
    · rw [h, h1]
      simp only [List.length_cons]
      omega
  · intro o d' hdraw
    obtain ⟨tiles, count⟩ := d
    unfold TileDeck.draw at hdraw
    split at hdraw
    · match tiles, h, hdraw with
      | t :: rest, h, hdraw =>
        simp only [Option.some.injEq, Prod.mk.injEq] at hdraw
        rw [← hdraw.2]
        simp only [List.length_cons] at h ⊢
        omega
    · simp only [Option.some.injEq, Prod.mk.injEq] at hdraw
      rw [← hdraw.2]
      exact h

/-- Witness for `C6_deck_draw` on a concrete two-tile deck. -/
theorem C6_deck_draw_witness :
    TileDeck.drawSeq
      ⟨[⟨"Kitchen", [("N", true)], "Indoor"⟩, ⟨"Garden", [("S", true)], "Outdoor"⟩], 2⟩ 3
      = some ([some ⟨"Kitchen", [("N", true)], "Indoor"⟩,
               some ⟨"Garden", [("S", true)], "Outdoor"⟩, none], ⟨[], 0⟩) :=
  (C6_deck_draw
    ⟨[⟨"Kitchen", [("N", true)], "Indoor"⟩, ⟨"Garden", [("S", true)], "Outdoor"⟩], 2⟩
    (by decide)).2.2

theorem pt_flag (s s' : Game) (d : String) (b : Bool)
    (h : Game.player_turn s d = some (b, s')) :
    s'.completed_turn_sequence = (s.completed_turn_sequence || b) := by
  unfold Game.player_turn at h
  dsimp only at h
  cases hmv : Game.move_direction s (pyUpper d) with
  | none => rw [hmv] at h; simp at h
  | some o =>
    rw [hmv] at h
    cases o with
    | none => simp only [Option.some.injEq, Prod.mk.injEq] at h; simp_all
    | some loc =>
      dsimp only at h
      repeat' (split at h)
      all_goals (try simp only [Option.some.injEq, Prod.mk.injEq] at h)
      all_goals (first
        | (obtain ⟨hb, hs2⟩ := h; subst hs2; subst hb; simp_all)
        | simp_all)

theorem bash_flag (s s' : Game) (d : String) (b : Bool)
    (h : Game.bash_through_wall s d = some (b, s')) :
    s'.completed_turn_sequence = (s.completed_turn_sequence || b) := by
  unfold Game.bash_through_wall at h
  dsimp only at h
  repeat' (split at h)
  all_goals (try simp only [Option.some.injEq, Prod.mk.injEq] at h)
  all_goals (first
    | (obtain ⟨hb, hs2⟩ := h; subst hs2; subst hb; simp_all)
    | simp_all)

def foyerT : Tile := ⟨"Foyer", [("N", true), ("E", false), ("S", false), ("W", false)], "Indoor"⟩

def bedroomT : Tile := ⟨"Bedroom", [("N", false), ("E", false), ("S", true), ("W", false)], "Indoor"⟩

def patioT : Tile := ⟨"Patio", [("N", false), ("E", false), ("S", true), ("W", false)], "Outdoor"⟩

def healthCard : DevCard := ⟨[("9 PM", ⟨"health", 1⟩)]⟩

def cW : Core :=
  { player := { location := (0, 0), health := 5, attack := 1, items := [], has_totem := false }
    board := { tile_map := [((0, 0), foyerT), ((-1, 0), bedroomT)]
               indoor_tiles := ⟨[], 0⟩
               outdoor_tiles := ⟨[], 0⟩
               dev_cards := [healthCard]
               time := "9 PM"
               patio_tile := patioT }
    inputs := [] }

def sW : Game := { core := cW, completed_turn_sequence := false }

def sWres : Game :=
  { core := { player := { location := (-1, 0), health := 6, attack := 1, items := [], has_totem := false }
              board := { tile_map := [((0, 0), foyerT), ((-1, 0), bedroomT)]
                         indoor_tiles := ⟨[], 0⟩
                         outdoor_tiles := ⟨[], 0⟩
                         dev_cards := []
                         time := "10 PM"
                         patio_tile := patioT }
              inputs := [] }
    completed_turn_sequence := true }

/-- C1: a fully resolved `player_turn` or `bash_through_wall` (result flag
`true`, covering any triggered event resolution) leaves the
turn-sequence-completed flag set; neither operation ever clears a set flag —
only `cower` clears it — so after any fully resolved move or bash, `cower`
succeeds and `bash` is not rejected by the cower gate. -/
theorem C1_turn_flag (s s' : Game) (d : String) (b : Bool) :
    (Game.player_turn s d = some (b, s') →
      (b = true → s'.completed_turn_sequence = true)
      ∧ (s.completed_turn_sequence = true → s'.completed_turn_sequence = true))
    ∧ (Game.bash_through_wall s d = some (b, s') →
      (b = true → s'.completed_turn_sequence = true)
      ∧ (s.completed_turn_sequence = true → s'.completed_turn_sequence = true))
    ∧ (s.completed_turn_sequence = true →
      (Game.cower s).1 = true ∧ (Game.cower s).2.completed_turn_sequence = false)
    ∧ (s.completed_turn_sequence = false → Game.cower s = (false, s)) := by
  refine ⟨fun h => ?_, fun h => ?_, fun h => ?_, fun h => ?_⟩
  · have := pt_flag s s' d b h
    constructor <;> intro hx <;> simp_all
  · have := bash_flag s s' d b h
    constructor <;> intro hx <;> simp_all
  · unfold Game.cower
    simp [h]
  · unfold Game.cower
    simp [h]

/-- Witness for `C1_turn_flag`: a concrete fully resolved move sets the flag,
and on a flag-clear state `cower` is rejected unchanged. -/
theorem C1_turn_flag_witness :
    sWres.completed_turn_sequence = true ∧ Game.cower sW = (false, sW) :=
  ⟨((C1_turn_flag sW sWres "n" true).1 (by decide)).1 rfl,
   (C1_turn_flag sW sWres "n" true).2.2.2 rfl⟩

theorem cower_pos (s : Game) (h : s.completed_turn_sequence = true) :
    Game.cower s = (true,
      { core := (Core.game_over
          { s.core with
            player := { s.core.player with health := s.core.player.health + 3 },
            board := { s.core.board with dev_cards := s.core.board.dev_cards.tail } }).2,
        completed_turn_sequence := false }) := by
  unfold Game.cower
  simp [h]

/-- A flag-set state whose event deck is already empty. -/
def sCow : Game :=
  { core := { cW with board := { cW.board with dev_cards := [] } }
    completed_turn_sequence := true }

/-- C7 counterexample: with the turn-sequence flag set but the event deck
already empty, `cower` runs to completion (it is not rejected) yet removes no
card — the deck length is unchanged — so cower does not always remove exactly
one card. -/
theorem C7_cower_counterexample :
    sCow.completed_turn_sequence = true
    ∧ sCow.core.board.dev_cards = []
    ∧ (Game.cower sCow).1 = true
    ∧ (Game.cower sCow).2.core.board.dev_cards.length
        = sCow.core.board.dev_cards.length := by
  decide

/-- C7 (amended): `cower` with the flag clear is rejected with no state
change (so a second consecutive cower is rejected); with the flag set it
clears the flag, heals exactly +3, discards the first event card when one
remains (an already-empty deck is left empty, with nothing removed) without
applying its content, re-evaluates game-over, and leaves the player's
location (and items) unchanged. -/
theorem C7_cower_amended (s : Game) :
    (s.completed_turn_sequence = false → Game.cower s = (false, s))
    ∧ (s.completed_turn_sequence = true →
        (Game.cower s).1 = true
        ∧ (Game.cower s).2.completed_turn_sequence = false
        ∧ (Game.cower s).2.core.player.health = s.core.player.health + 3
        ∧ (Game.cower s).2.core.player.location = s.core.player.location
        ∧ (Game.cower s).2.core.player.items = s.core.player.items
        ∧ (Game.cower s).2.core.board.dev_cards = s.core.board.dev_cards.tail
        ∧ (∀ card rest, s.core.board.dev_cards = card :: rest →
            (Game.cower s).2.core.board.dev_cards.length + 1
              = s.core.board.dev_cards.length)
        ∧ Game.cower (Game.cower s).2 = (false, (Game.cower s).2)) := by
  constructor
  · intro h
    unfold Game.cower
    simp [h]
  · intro h
    have hc := cower_pos s h
    have hf := game_over_frame
      { s.core with
        player := { s.core.player with health := s.core.player.health + 3 },
        board := { s.core.board with dev_cards := s.core.board.dev_cards.tail } }
    rw [hc]
    refine ⟨rfl, rfl, ?_, ?_, ?_, ?_, ?_, ?_⟩
    · rw [hf.1]
    · rw [hf.1]
    · rw [hf.1]
    · rw [hf.2.2.1]
    · intro card rest hcr
      rw [hf.2.2.1, hcr]
      simp
    · unfold Game.cower
      simp

/-- Witness for `C7_cower_amended`: cowering from a concrete flag-set state
succeeds and heals 5 → 8. -/
theorem C7_cower_amended_witness :
    (Game.cower ⟨cW, true⟩).1 = true
    ∧ (Game.cower ⟨cW, true⟩).2.core.player.health = 8 := by
  have hres := (C7_cower_amended ⟨cW, true⟩).2 rfl
  refine ⟨hres.1, ?_⟩
  rw [hres.2.2.1]
  decide

/-- C8: a `player_turn` whose upper-cased direction is not an exit of the
occupied room, or whose target coordinate holds an explored room lacking the
opposite exit, is rejected with the entire game state — player, board,
decks, clock and turn flag — returned unchanged. -/
theorem C8_move_rejection (s : Game) (d : String) (room : Tile)
    (hroom : Core.current_room s.core = some room)
    (hcase :
      pyUpper d ∉ room.possible_exits
      ∨ ∃ newLoc tgt,
          update_location s.core.player.location (pyUpper d) = some newLoc
          ∧ dictGet s.core.board.tile_map newLoc = some tgt
          ∧ opposite_direction (pyUpper d) ∉ tgt.possible_exits) :
    Game.player_turn s d = some (false, s) := by
  unfold Game.player_turn Game.move_direction
  dsimp only
  rw [hroom]
  rcases hcase with hni | ⟨newLoc, tgt, h1, h2, h3⟩
  · simp [hni]
  · by_cases hmem : pyUpper d ∈ room.possible_exits
    · simp only [hmem, if_true, h1]
      have hexp : Board.is_explored s.core.board newLoc = true := by
        simp [Board.is_explored, h2]
      simp [hexp, h2, h3]
    · simp [hmem]

/-- Witness for `C8_move_rejection`: an invalid direction from the foyer is
rejected with the state unchanged. -/
theorem C8_move_rejection_witness :
    Game.player_turn sW "x" = some (false, sW) :=
  C8_move_rejection sW "x" foyerT (by decide) (Or.inl (by decide))

/-- C10: when an item is found while the player already holds at least two
items and the external answer is `"N"`, the prompt loop stops after that
single answer and the find is discarded: items, attack and health are all
unchanged (`replace_item`/`_update_attack` never run). -/
theorem C10_decline_item (c : Core) (restIn : List String) (card : DevCard)
    (more : List DevCard) (itm : Content)
    (h2 : 2 ≤ c.player.items.length)
    (hin : c.inputs = "N" :: restIn)
    (hgo : (Core.game_over c).1 = false)
    (hcards : c.board.dev_cards = card :: more)
    (hitem : dictGet card.content "Item" = some itm) :
    ∃ c2, Core.get_new_item c = some c2
      ∧ c2.player.items = c.player.items
      ∧ c2.player.attack = c.player.attack
      ∧ c2.player.health = c.player.health
      ∧ c2.inputs = restIn := by
  have hf := game_over_frame c
  rcases hgo2 : Core.game_over c with ⟨flag, cg⟩
  rw [hgo2] at hgo hf
  dsimp only at hgo hf
  subst hgo
  have hfind : findInputUpper ["Y", "N"] ("N" :: restIn) = some ("N", restIn) := by
    show (if pyUpper "N" ∈ ["Y", "N"] then some (pyUpper "N", restIn)
      else findInputUpper ["Y", "N"] restIn) = some ("N", restIn)
    rw [if_pos (by decide), show pyUpper "N" = "N" from by decide]
  refine ⟨{ { cg with board := { cg.board with dev_cards := more } } with inputs := restIn },
    ?_, ?_, ?_, ?_, rfl⟩
  · unfold Core.get_new_item
    dsimp only
    rw [hgo2]
    dsimp only
    rw [hf.2.2.1, hcards]
    dsimp only
    rw [hitem]
    dsimp only
    rw [hf.1, if_pos h2, hf.2.1, hin, hfind]
    dsimp only
    simp
  · dsimp only
    rw [hf.1]
  · dsimp only
    rw [hf.1]
  · dsimp only
    rw [hf.1]

/-- An event card carrying only an item entry. -/
def itemCard : DevCard := ⟨[("Item", ⟨"Oil", 0⟩)]⟩

/-- A core at item capacity with a pending `"N"` answer. -/
def cItem : Core :=
  { player := { location := (0, 0), health := 5, attack := 1,
                items := ["Golf Club", "Machete"], has_totem := false }
    board := { cW.board with dev_cards := [itemCard] }
    inputs := ["N"] }

/-- Witness for `C10_decline_item` at a concrete capacity state. -/
theorem C10_decline_item_witness :
    ∃ c2, Core.get_new_item cItem = some c2
      ∧ c2.player.items = cItem.player.items
      ∧ c2.player.attack = cItem.player.attack
      ∧ c2.player.health = cItem.player.health
      ∧ c2.inputs = [] :=
  C10_decline_item cItem [] itemCard [] ⟨"Oil", 0⟩ (by decide) rfl (by decide) rfl (by decide)

/-- A multi-exit Dining Room tile. -/
def diningT : Tile := ⟨"Dining Room", [("N", true), ("E", true), ("S", true), ("W", false)], "Indoor"⟩

/-- C2 counterexample: arriving heading north, the tile entered into the map
one row above is `rotate('N','N')` of the patio — a 180° turn (the south-only
patio comes out north-only) — not the unrotated Patio tile the claim
states. -/
theorem C2_patio_counterexample :
    ((Core.place_patio_tile cW "N" diningT).bind
        (fun r => dictGet r.1.board.tile_map (-1, 0)))
      = some ⟨"Patio", [("N", true), ("E", false), ("S", false), ("W", false)], "Outdoor"⟩
    ∧ cW.board.patio_tile
        = ⟨"Patio", [("N", false), ("E", false), ("S", true), ("W", false)], "Outdoor"⟩
    ∧ ((Core.place_patio_tile cW "N" diningT).bind
        (fun r => dictGet r.1.board.tile_map (-1, 0)))
      ≠ some cW.board.patio_tile := by
  decide

/-- C2 (amended): when the Dining Room is drawn, a south arrival (`'S'`)
rotates the dining room 180° (`rotate('S','S')` has rotation count 2) and
enters the patio, unmodified, into the tile map one row below the player;
otherwise the patio rotated 180° (`rotate('N','N')`, rotation count 2) is
entered one row above; the dining room is returned unchanged in that case. -/
theorem C2_patio_amended (c : Core) (ex : String) (dining : Tile) :
    (ex = "S" → ∀ d2, Tile.rotate dining "S" "S" = some d2 →
      Core.place_patio_tile c ex dining
        = some ({ c with board := { c.board with
            tile_map := dictSet c.board.tile_map
              (c.player.location.1 + 1, c.player.location.2) c.board.patio_tile } }, d2)
      ∧ rotationsFor "S" "S" = some 2)
    ∧ (ex ≠ "S" → ∀ p2, Tile.rotate c.board.patio_tile "N" "N" = some p2 →
      Core.place_patio_tile c ex dining
        = some ({ c with board := { c.board with
            tile_map := dictSet c.board.tile_map
              (c.player.location.1 - 1, c.player.location.2) p2 } }, dining)
      ∧ rotationsFor "N" "N" = some 2) := by
  constructor
  · intro hex d2 hrot
    subst hex
    refine ⟨?_, by decide⟩
    unfold Core.place_patio_tile
    simp [hrot]
  · intro hne p2 hrot
    have hb : (ex == "S") = false := by
      simp [hne]
    refine ⟨?_, by decide⟩
    unfold Core.place_patio_tile
    simp [hb, hrot]

/-- Witness for `C2_patio_amended`: a concrete south arrival flips the dining
room and places the patio one row below. -/
theorem C2_patio_amended_witness :
    Core.place_patio_tile cW "S" diningT
      = some ({ cW with board := { cW.board with
          tile_map := dictSet cW.board.tile_map (1, 0) cW.board.patio_tile } },
          ⟨"Dining Room", [("N", true), ("E", false), ("S", true), ("W", true)], "Indoor"⟩) :=
  ((C2_patio_amended cW "S" diningT).1 rfl
    ⟨"Dining Room", [("N", true), ("E", false), ("S", true), ("W", true)], "Indoor"⟩
    (by decide)).1
